import Mathlib

/-!
Verification of the TTS narrator / dialogue tool's core pipeline: the
section/subsection content tree, per-node asynchronous generation, the
document-level staleness fingerprint, the export bundle builder and the
file-name sanitizer.  Each definition is a shallow embedding of the
corresponding TypeScript function; machine strings are Lean `String`s and
JavaScript `string.trim()` / `substring` / regex semantics are modelled
character-for-character below.
-/

/-- Voices of the `VoiceName` enum in `types.ts`. -/
inductive VoiceName
  | kore
  | puck
  | charon
  | fenrir
  | aoede
deriving DecidableEq, Repr

/-- String value of each enum member, as in `types.ts` (`Kore = 'Kore'`, …). -/
def VoiceName.str : VoiceName → String
  | .kore => "Kore"
  | .puck => "Puck"
  | .charon => "Charon"
  | .fenrir => "Fenrir"
  | .aoede => "Aoede"

/-- Generation status of a node: `'idle' | 'generating' | 'success' | 'error'`. -/
inductive Status
  | idle
  | generating
  | success
  | error
deriving DecidableEq, Repr

/-- The `GeneratedAudio` record: a wav blob (bytes), an object URL and a duration. -/
structure GeneratedAudio where
  blob : List Nat
  url : String
  duration : Nat
deriving DecidableEq, Repr

/-- A `Subsection` of `types.ts`. -/
structure Subsection where
  id : String
  name : String
  text : String
  voice : VoiceName
  audio : Option GeneratedAudio
  status : Status
  error : Option String
deriving DecidableEq, Repr

/-- A `Snippet` (root section) of `types.ts`. -/
structure Snippet where
  id : String
  name : String
  text : String
  voice : VoiceName
  audio : Option GeneratedAudio
  status : Status
  error : Option String
  subsections : List Subsection
deriving DecidableEq, Repr

/-- A dialogue `Character`. -/
structure Character where
  id : String
  name : String
  voice : VoiceName
deriving DecidableEq, Repr

/-- A dialogue `ScriptLine`. -/
structure ScriptLine where
  id : String
  characterId : String
  text : String
deriving DecidableEq, Repr

/-- An uploaded or recorded audio payload (`{name, data, mimeType}`). -/
structure FileRef where
  name : String
  data : String
  mimeType : String
deriving DecidableEq, Repr

/-- The four runtime modes the `App` component switches between. -/
inductive AppMode
  | narration
  | dialogue
  | cloning
  | transcription
deriving DecidableEq, Repr

/-! ## JavaScript string primitives -/

/-- JavaScript whitespace (`\s` in a regex and the set `String.prototype.trim`
strips): tab, LF, VT, FF, CR, space, NBSP, and the Unicode space separators,
line/paragraph separators and BOM. -/
def isJsSpace (c : Char) : Bool :=
  c.val == 0x9 || c.val == 0xA || c.val == 0xB || c.val == 0xC || c.val == 0xD ||
  c.val == 0x20 || c.val == 0xA0 || c.val == 0x1680 ||
  (decide (0x2000 ≤ c.val) && decide (c.val ≤ 0x200A)) ||
  c.val == 0x2028 || c.val == 0x2029 || c.val == 0x202F || c.val == 0x205F ||
  c.val == 0x3000 || c.val == 0xFEFF

/-- Drop leading and trailing JavaScript whitespace from a character list. -/
def jsTrimData (l : List Char) : List Char :=
  ((l.dropWhile isJsSpace).reverse.dropWhile isJsSpace).reverse

/-- JavaScript `s.trim()`. -/
def jsTrim (s : String) : String :=
  String.mk (jsTrimData s.data)

/-- JavaScript `s.substring(a, b)`: both offsets are clamped to the string's
length and swapped when `a > b`; the result is the characters in `[lo, hi)`. -/
def jsSubstring (s : String) (a b : Nat) : String :=
  let la := min a s.data.length
  let lb := min b s.data.length
  String.mk (((s.data).drop (min la lb)).take (max la lb - min la lb))

/-! ## NameSanitizer

`generateFileName` in `TableOfContents.tsx` and `formatFileName` in the `App`
component are the same pipeline:
`parts.filter(p => p && p.trim()).map(p => p.trim().replace(/\s+/g, '-').replace(/[^a-zA-Z0-9-_]/g, '')).join('-')`. -/

/-- Global regex replace of `\s+` by `'-'`, scanned left to right: the flag
records whether the previous character was part of a whitespace run. -/
def collapseAux : Bool → List Char → List Char
  | _, [] => []
  | prevSpace, c :: rest =>
    if isJsSpace c then
      if prevSpace then collapseAux true rest
      else '-' :: collapseAux true rest
    else c :: collapseAux false rest

/-- A character kept by the regex character class `[^a-zA-Z0-9-_]` deletion. -/
def isFileNameChar (c : Char) : Bool :=
  (decide ('a' ≤ c) && decide (c ≤ 'z')) ||
  (decide ('A' ≤ c) && decide (c ≤ 'Z')) ||
  (decide ('0' ≤ c) && decide (c ≤ '9')) ||
  c == '-' || c == '_'

/-- One part of the file name: trim, collapse whitespace runs to hyphens, strip
disallowed characters.  This is the `map` body of `generateFileName`. -/
def sanitizePart (p : String) : String :=
  String.mk ((collapseAux false (jsTrimData p.data)).filter isFileNameChar)

/-- The `generateFileName` helper of `TableOfContents.tsx`. -/
def generateFileName (parts : List String) : String :=
  String.intercalate "-" ((parts.filter (fun p => !(jsTrim p).isEmpty)).map sanitizePart)

/-- The `formatFileName` helper of the `App` component (same code, repeated
in the source). -/
def formatFileName (parts : List String) : String :=
  String.intercalate "-" ((parts.filter (fun p => !(jsTrim p).isEmpty)).map sanitizePart)

/-- Helper: `dropWhile` never lengthens a list. -/
theorem dropWhile_length_le (p : Char → Bool) (l : List Char) :
    (l.dropWhile p).length ≤ l.length := by
  induction l with
  | nil => simp [List.dropWhile]
  | cons c rest ih =>
    simp only [List.dropWhile]
    cases hp : p c
    · simp
    · exact le_trans ih (Nat.le_succ _)

/-- Reference reading of the spec's "collapse internal whitespace runs to one
hyphen": each maximal whitespace run is replaced by a single hyphen. -/
def collapseRunsChars : List Char → List Char
  | [] => []
  | c :: rest =>
    if isJsSpace c then '-' :: collapseRunsChars (rest.dropWhile isJsSpace)
    else c :: collapseRunsChars rest
termination_by l => l.length
decreasing_by
  · simp only [List.length_cons]
    exact Nat.lt_succ_of_le (dropWhile_length_le _ _)
  · simp

/-- Reference definition of one sanitized part, following the spec's wording:
trim, collapse each whitespace run to one hyphen, strip every character
outside `[A-Za-z0-9_-]`. -/
def sanitizeSpecPart (p : String) : String :=
  String.mk ((collapseRunsChars (jsTrimData p.data)).filter isFileNameChar)

/-- Reference definition of `sanitize(parts)` from the spec: drop blank/empty
parts, sanitize each remaining part, join the survivors with hyphens. -/
def sanitizeSpec (parts : List String) : String :=
  String.intercalate "-" ((parts.filter (fun p => !(jsTrim p).isEmpty)).map sanitizeSpecPart)

set_option maxHeartbeats 2000000 in
/-- Helper: `collapseRunsChars` on the empty list. -/
theorem collapseRunsChars_nil : collapseRunsChars [] = [] := by
  rw [collapseRunsChars.eq_def]

/-- Helper: `collapseRunsChars` at a whitespace character. -/
theorem collapseRunsChars_cons_space (c : Char) (rest : List Char) (h : isJsSpace c = true) :
    collapseRunsChars (c :: rest) = '-' :: collapseRunsChars (rest.dropWhile isJsSpace) := by
  rw [collapseRunsChars.eq_def]
  simp [h]

/-- Helper: `collapseRunsChars` at a non-whitespace character. -/
theorem collapseRunsChars_cons_other (c : Char) (rest : List Char) (h : ¬ isJsSpace c = true) :
    collapseRunsChars (c :: rest) = c :: collapseRunsChars rest := by
  rw [collapseRunsChars.eq_def]
  simp [h]

/-- Helper: the scanning replace and the run-based replace agree. -/
theorem collapseAux_eq_collapseRuns (n : Nat) :
    ∀ l : List Char, l.length ≤ n →
      collapseAux false l = collapseRunsChars l ∧
      collapseAux true l = collapseRunsChars (l.dropWhile isJsSpace) := by
  induction n with
  | zero =>
    intro l h
    have : l = [] := List.length_eq_zero.mp (Nat.le_zero.mp h)
    subst this
    simp [collapseAux, collapseRunsChars_nil]
  | succ n ih =>
    intro l h
    match l with
    | [] => simp [collapseAux, collapseRunsChars_nil]
    | c :: rest =>
      have hr : rest.length ≤ n := by
        simp only [List.length_cons] at h
        omega
      by_cases hc : isJsSpace c
      · constructor
        · have h1 : collapseAux false (c :: rest) = '-' :: collapseAux true rest := by
            simp [collapseAux, hc]
          rw [h1, collapseRunsChars_cons_space c rest hc, (ih rest hr).2]
        · have h1 : collapseAux true (c :: rest) = collapseAux true rest := by
            simp [collapseAux, hc]
          have h2 : (c :: rest).dropWhile isJsSpace = rest.dropWhile isJsSpace := by
            simp [List.dropWhile, hc]
          rw [h1, h2, (ih rest hr).2]
      · constructor
        · have h1 : collapseAux false (c :: rest) = c :: collapseAux false rest := by
            simp [collapseAux, hc]
          rw [h1, collapseRunsChars_cons_other c rest hc, (ih rest hr).1]
        · have h1 : collapseAux true (c :: rest) = c :: collapseAux false rest := by
            simp [collapseAux, hc]
          have h2 : (c :: rest).dropWhile isJsSpace = c :: rest := by
            simp [List.dropWhile, hc]
          rw [h1, h2, collapseRunsChars_cons_other c rest hc, (ih rest hr).1]

/-- Helper: the code's per-part pipeline equals the spec's per-part pipeline. -/
theorem sanitizePart_eq_spec (p : String) : sanitizePart p = sanitizeSpecPart p := by
  unfold sanitizePart sanitizeSpecPart
  rw [(collapseAux_eq_collapseRuns (jsTrimData p.data).length (jsTrimData p.data) le_rfl).1]

/-- Helper: the whole code pipeline equals the whole spec pipeline. -/
theorem generateFileName_eq_spec (parts : List String) :
    generateFileName parts = sanitizeSpec parts := by
  unfold generateFileName sanitizeSpec
  rw [funext sanitizePart_eq_spec]

/-- C7: `sanitize(parts)` (the code's `generateFileName`, and its duplicate
`formatFileName`) is a total function equal to the spec's reference
definition — drop blank parts, trim, collapse whitespace runs to one hyphen,
strip characters outside `[A-Za-z0-9_-]`, join with hyphens — and the spec's
two examples evaluate as stated. -/
theorem c7_sanitize_matches_reference :
    (∀ parts, generateFileName parts = sanitizeSpec parts) ∧
    (∀ parts, formatFileName parts = sanitizeSpec parts) ∧
    generateFileName ["My App", "Intro!!"] = "My-App-Intro" ∧
    generateFileName ["", "  "] = "" :=
  ⟨generateFileName_eq_spec, generateFileName_eq_spec, by decide, by decide⟩

/-! ## ContentTree operations

The `App` component owns `snippets : Snippet[]`; `SectionEditor` edits one
section and reports a whole replacement object through `onUpdate`, which the
`App` applies with `updateSnippet`. -/

/-- The `updateSnippet` handler of the `App` component:
`snippets.map(s => s.id === updatedSnippet.id ? updatedSnippet : s)`. -/
def updateSnippet (snippets : List Snippet) (updated : Snippet) : List Snippet :=
  snippets.map (fun s => if s.id == updated.id then updated else s)

/-- The `removeSnippet` handler: `snippets.filter(s => s.id !== id)`. -/
def removeSnippet (snippets : List Snippet) (id : String) : List Snippet :=
  snippets.filter (fun s => !(s.id == id))

/-- The `addSnippetFromSelection` handler: a no-op unless the selection is
non-collapsed and non-blank after trimming; otherwise appends a snippet named
`Section N` (N = current root count + 1) with the selected text, the current
narration voice, no audio, status `idle` and no error. -/
def addSnippetFromSelection (snippets : List Snippet) (freshId : String)
    (narrationText : String) (narrationVoice : VoiceName) (selStart selEnd : Nat) :
    List Snippet :=
  if selStart = selEnd then snippets
  else if (jsTrim (jsSubstring narrationText selStart selEnd)).isEmpty then snippets
  else
    snippets ++ [{ id := freshId
                   name := "Section " ++ toString (snippets.length + 1)
                   text := jsSubstring narrationText selStart selEnd
                   voice := narrationVoice
                   audio := none
                   status := .idle
                   error := none
                   subsections := [] }]

/-- The `handleExtractSubsection` handler of `SectionEditor`: `none` models the
early returns (collapsed selection, or blank selected text); otherwise the
section with a child named `Part M` (M = current child count + 1) appended,
carrying the selected substring, the parent's current voice, no audio, status
`idle` and no error.  The parent's other fields are spread unchanged. -/
def handleExtractSubsection (sec : Snippet) (freshId : String)
    (selStart selEnd : Nat) : Option Snippet :=
  if selStart = selEnd then none
  else if (jsTrim (jsSubstring sec.text selStart selEnd)).isEmpty then none
  else
    some { sec with
           subsections := sec.subsections ++
             [{ id := freshId
                name := "Part " ++ toString (sec.subsections.length + 1)
                text := jsSubstring sec.text selStart selEnd
                voice := sec.voice
                audio := none
                status := .idle
                error := none }] }

/-- The `updateSubsection` helper of `SectionEditor`, specialised to a whole
replacement function for the matching child. -/
def updateSubIn (sec : Snippet) (subId : String) (f : Subsection → Subsection) :
    Snippet :=
  { sec with
    subsections := sec.subsections.map (fun t => if t.id == subId then f t else t) }

/-- The `deleteSubsection` helper of `SectionEditor`. -/
def deleteSubsection (sec : Snippet) (subId : String) : Snippet :=
  { sec with subsections := sec.subsections.filter (fun t => !(t.id == subId)) }

/-! ## GenerationOrchestrator

`generateSnippet` finds the node, returns silently when absent, otherwise
immediately writes `status='generating', error:null`, then awaits
`processGeneration(snippet.text, snippet.voice)` — with **no** emptiness
check on the text — and on resolution writes either
`status='success', audio` or `status='error', error`.  The two phases are
split below so overlapping calls can be interleaved. -/

/-- The synthesis request `generateSnippet` sends (the arguments of its
`processGeneration(snippet.text, snippet.voice)` call), `none` when the id is
absent and no call is made. -/
def generateSnippetRequest (snippets : List Snippet) (id : String) :
    Option (String × VoiceName) :=
  (snippets.find? (fun s => s.id == id)).map (fun s => (s.text, s.voice))

/-- The synchronous prefix of `generateSnippet`: when the id is found, mark the
node `generating` and clear its error; otherwise return unchanged. -/
def generateSnippetStart (snippets : List Snippet) (id : String) : List Snippet :=
  match snippets.find? (fun s => s.id == id) with
  | none => snippets
  | some _ =>
    snippets.map (fun s =>
      if s.id == id then { s with status := .generating, error := none } else s)

/-- The resolution handler of a successful `generateSnippet` call: write
`status='success'` and attach the audio (the error field is not written). -/
def generateSnippetFinishOk (snippets : List Snippet) (id : String)
    (audio : GeneratedAudio) : List Snippet :=
  snippets.map (fun s =>
    if s.id == id then { s with status := .success, audio := some audio } else s)

/-- The resolution handler of a failed `generateSnippet` call: write
`status='error'` and the message (the audio field is not written). -/
def generateSnippetFinishErr (snippets : List Snippet) (id : String)
    (msg : String) : List Snippet :=
  snippets.map (fun s =>
    if s.id == id then { s with status := .error, error := some msg } else s)

/-- The synthesis request `generateSubsection` sends, `none` when either id is
absent and no call is made. -/
def generateSubsectionRequest (snippets : List Snippet) (sectionId subId : String) :
    Option (String × VoiceName) :=
  ((snippets.find? (fun s => s.id == sectionId)).bind
    (fun s => s.subsections.find? (fun t => t.id == subId))).map
    (fun t => (t.text, t.voice))

/-- The synchronous prefix of `generateSubsection`. -/
def generateSubsectionStart (snippets : List Snippet) (sectionId subId : String) :
    List Snippet :=
  match snippets.find? (fun s => s.id == sectionId) with
  | none => snippets
  | some s =>
    match s.subsections.find? (fun t => t.id == subId) with
    | none => snippets
    | some _ =>
      snippets.map (fun s =>
        if s.id == sectionId then
          { s with subsections := s.subsections.map (fun t =>
              if t.id == subId then { t with status := .generating, error := none }
              else t) }
        else s)

/-- The resolution handler of a successful `generateSubsection` call. -/
def generateSubsectionFinishOk (snippets : List Snippet) (sectionId subId : String)
    (audio : GeneratedAudio) : List Snippet :=
  snippets.map (fun s =>
    if s.id == sectionId then
      { s with subsections := s.subsections.map (fun t =>
          if t.id == subId then { t with status := .success, audio := some audio }
          else t) }
    else s)

/-- The resolution handler of a failed `generateSubsection` call. -/
def generateSubsectionFinishErr (snippets : List Snippet) (sectionId subId : String)
    (msg : String) : List Snippet :=
  snippets.map (fun s =>
    if s.id == sectionId then
      { s with subsections := s.subsections.map (fun t =>
          if t.id == subId then { t with status := .error, error := some msg }
          else t) }
    else s)

/-! ## Tree events

Every way the running app mutates `snippets`: author edits through the
handlers above, and the split phases of the asynchronous generation calls.
Interleaving start and resolution events models overlapping calls. -/

/-- One atomic mutation of the snippet list. -/
inductive TreeEvent
  | add (freshId narrationText : String) (voice : VoiceName) (selStart selEnd : Nat)
  | remove (id : String)
  | clearAll
  | setName (id v : String)
  | setText (id v : String)
  | setVoice (id : String) (v : VoiceName)
  | extract (id freshId : String) (selStart selEnd : Nat)
  | subSetName (id subId v : String)
  | subSetText (id subId v : String)
  | subSetVoice (id subId : String) (v : VoiceName)
  | subRemove (id subId : String)
  | genStart (id : String)
  | genOk (id : String) (audio : GeneratedAudio)
  | genErr (id msg : String)
  | subGenStart (id subId : String)
  | subGenOk (id subId : String) (audio : GeneratedAudio)
  | subGenErr (id subId msg : String)

/-- Apply one event, routing author edits through `updateSnippet` exactly as
the `SectionEditor`'s `onUpdate` calls do. -/
def stepTree (snippets : List Snippet) : TreeEvent → List Snippet
  | .add freshId text voice a b => addSnippetFromSelection snippets freshId text voice a b
  | .remove id => removeSnippet snippets id
  | .clearAll => []
  | .setName id v =>
    match snippets.find? (fun s => s.id == id) with
    | none => snippets
    | some s => updateSnippet snippets { s with name := v }
  | .setText id v =>
    match snippets.find? (fun s => s.id == id) with
    | none => snippets
    | some s => updateSnippet snippets { s with text := v }
  | .setVoice id v =>
    match snippets.find? (fun s => s.id == id) with
    | none => snippets
    | some s => updateSnippet snippets { s with voice := v }
  | .extract id freshId a b =>
    match snippets.find? (fun s => s.id == id) with
    | none => snippets
    | some s =>
      match handleExtractSubsection s freshId a b with
      | none => snippets
      | some s2 => updateSnippet snippets s2
  | .subSetName id subId v =>
    match snippets.find? (fun s => s.id == id) with
    | none => snippets
    | some s => updateSnippet snippets (updateSubIn s subId (fun t => { t with name := v }))
  | .subSetText id subId v =>
    match snippets.find? (fun s => s.id == id) with
    | none => snippets
    | some s => updateSnippet snippets (updateSubIn s subId (fun t => { t with text := v }))
  | .subSetVoice id subId v =>
    match snippets.find? (fun s => s.id == id) with
    | none => snippets
    | some s => updateSnippet snippets (updateSubIn s subId (fun t => { t with voice := v }))
  | .subRemove id subId =>
    match snippets.find? (fun s => s.id == id) with
    | none => snippets
    | some s => updateSnippet snippets (deleteSubsection s subId)
  | .genStart id => generateSnippetStart snippets id
  | .genOk id audio => generateSnippetFinishOk snippets id audio
  | .genErr id msg => generateSnippetFinishErr snippets id msg
  | .subGenStart id subId => generateSubsectionStart snippets id subId
  | .subGenOk id subId audio => generateSubsectionFinishOk snippets id subId audio
  | .subGenErr id subId msg => generateSubsectionFinishErr snippets id subId msg

/-- States reachable from the app's empty initial snippet list. -/
def reachTree (evs : List TreeEvent) : List Snippet :=
  evs.foldl stepTree []

/-! ## The status/artifact/error invariant -/

/-- The per-node state condition of the (amended) invariant: `success` carries
an artifact, `error` carries a message. -/
def nodeStateOk (st : Status) (audio : Option GeneratedAudio) (err : Option String) : Bool :=
  (!(st == Status.success) || audio.isSome) && (!(st == Status.error) || err.isSome)

/-- `nodeStateOk` for one subsection. -/
def subOk (t : Subsection) : Bool :=
  nodeStateOk t.status t.audio t.error

/-- `nodeStateOk` for a section and all its subsections. -/
def snippetOk (s : Snippet) : Bool :=
  nodeStateOk s.status s.audio s.error && s.subsections.all subOk

/-- The invariant over the whole snippet list. -/
def treeOk (snippets : List Snippet) : Bool :=
  snippets.all snippetOk

/-- Helper: split a true conjunction of Bools. -/
theorem bool_and_split {a b : Bool} (h : (a && b) = true) : a = true ∧ b = true := by
  simp only [Bool.and_eq_true] at h
  exact h

/-- Helper: join two true Bools into a conjunction. -/
theorem bool_and_join {a b : Bool} (ha : a = true) (hb : b = true) : (a && b) = true := by
  simp [ha, hb]

/-- Helper: a filtered list keeps the invariant. -/
theorem treeOk_filter (l : List Snippet) (p : Snippet → Bool) (h : treeOk l = true) :
    treeOk (l.filter p) = true := by
  simp only [treeOk, List.all_eq_true] at *
  intro x hx
  exact h x (List.mem_of_mem_filter hx)

/-- Helper: mapping a per-node-sound update over the matching nodes keeps the
invariant. -/
theorem treeOk_map_ite (l : List Snippet) (id : String) (g : Snippet → Snippet)
    (h : treeOk l = true)
    (hg : ∀ s, snippetOk s = true → snippetOk (g s) = true) :
    treeOk (l.map (fun s => if s.id == id then g s else s)) = true := by
  simp only [treeOk, List.all_eq_true] at *
  intro x hx
  obtain ⟨s, hs, rfl⟩ := List.mem_map.mp hx
  split
  · exact hg s (h s hs)
  · exact h s hs

/-- Helper: replacing the matching nodes by one sound node keeps the invariant. -/
theorem treeOk_updateSnippet (l : List Snippet) (upd : Snippet)
    (hl : treeOk l = true) (hu : snippetOk upd = true) :
    treeOk (updateSnippet l upd) = true := by
  simp only [treeOk, updateSnippet, List.all_eq_true] at *
  intro x hx
  obtain ⟨s, hs, rfl⟩ := List.mem_map.mp hx
  split
  · exact hu
  · exact hl s hs

/-- Helper: renaming a section keeps it sound. -/
theorem snippetOk_setName (s : Snippet) (v : String) (h : snippetOk s = true) :
    snippetOk { s with name := v } = true := by
  cases s
  exact h

/-- Helper: retyping a section's text keeps it sound. -/
theorem snippetOk_setText (s : Snippet) (v : String) (h : snippetOk s = true) :
    snippetOk { s with text := v } = true := by
  cases s
  exact h

/-- Helper: changing a section's voice keeps it sound. -/
theorem snippetOk_setVoice (s : Snippet) (v : VoiceName) (h : snippetOk s = true) :
    snippetOk { s with voice := v } = true := by
  cases s
  exact h

/-- Helper: a node marked `generating` with its error cleared is sound. -/
theorem snippetOk_genStart (s : Snippet) (h : snippetOk s = true) :
    snippetOk { s with status := Status.generating, error := none } = true := by
  cases s
  exact (bool_and_split h).2

/-- Helper: a node marked `success` with audio attached is sound. -/
theorem snippetOk_genOk (s : Snippet) (audio : GeneratedAudio) (h : snippetOk s = true) :
    snippetOk { s with status := Status.success, audio := some audio } = true := by
  cases s
  exact (bool_and_split h).2

/-- Helper: a node marked `error` with a message is sound. -/
theorem snippetOk_genErr (s : Snippet) (msg : String) (h : snippetOk s = true) :
    snippetOk { s with status := Status.error, error := some msg } = true := by
  cases s
  exact (bool_and_split h).2

/-- Helper: mapping a `subOk`-preserving function over matching subsections
keeps a section sound. -/
theorem snippetOk_updateSubIn (s : Snippet) (subId : String) (f : Subsection → Subsection)
    (hf : ∀ t, subOk t = true → subOk (f t) = true) (h : snippetOk s = true) :
    snippetOk (updateSubIn s subId f) = true := by
  obtain ⟨hn, hsubs⟩ := bool_and_split h
  cases s
  refine bool_and_join hn ?_
  simp only [List.all_eq_true] at hsubs ⊢
  intro x hx
  obtain ⟨t, ht, rfl⟩ := List.mem_map.mp hx
  split
  · exact hf t (hsubs t ht)
  · exact hsubs t ht

/-- Helper: deleting subsections keeps a section sound. -/
theorem snippetOk_deleteSubsection (s : Snippet) (subId : String)
    (h : snippetOk s = true) : snippetOk (deleteSubsection s subId) = true := by
  obtain ⟨hn, hsubs⟩ := bool_and_split h
  cases s
  refine bool_and_join hn ?_
  simp only [List.all_eq_true] at hsubs ⊢
  intro x hx
  exact hsubs x (List.mem_of_mem_filter hx)

/-- Helper: an extracted child is idle and sound, so extraction keeps a
section sound. -/
theorem snippetOk_extract (s : Snippet) (freshId : String) (a b : Nat) (s2 : Snippet)
    (h2 : handleExtractSubsection s freshId a b = some s2) (h : snippetOk s = true) :
    snippetOk s2 = true := by
  obtain ⟨hn, hsubs⟩ := bool_and_split h
  unfold handleExtractSubsection at h2
  split at h2
  · exact absurd h2 (by simp)
  · split at h2
    · exact absurd h2 (by simp)
    · injection h2 with h2
      subst h2
      cases s
      refine bool_and_join hn ?_
      rw [List.all_append]
      refine bool_and_join hsubs ?_
      rfl

/-- Helper: each subsection edit used by `SectionEditor` preserves `subOk`. -/
theorem subOk_setField (t : Subsection) (h : subOk t = true) :
    subOk { t with name := t.name } = true := by
  cases t
  exact h

/-- Helper: a subsection marked `generating` with its error cleared is sound. -/
theorem subOk_genStart (t : Subsection) (h : subOk t = true) :
    subOk { t with status := Status.generating, error := none } = true := by
  cases t
  rfl

/-- Helper: a subsection marked `success` with audio attached is sound. -/
theorem subOk_genOk (t : Subsection) (audio : GeneratedAudio) (h : subOk t = true) :
    subOk { t with status := Status.success, audio := some audio } = true := by
  cases t
  rfl

/-- Helper: a subsection marked `error` with a message is sound. -/
theorem subOk_genErr (t : Subsection) (msg : String) (h : subOk t = true) :
    subOk { t with status := Status.error, error := some msg } = true := by
  cases t
  rfl

/-- Helper: every single event preserves the invariant. -/
theorem stepTree_preserves (l : List Snippet) (e : TreeEvent) (h : treeOk l = true) :
    treeOk (stepTree l e) = true := by
  cases e with
  | add freshId text voice a b =>
    simp only [stepTree, addSnippetFromSelection]
    split
    · exact h
    · split
      · exact h
      · rw [treeOk, List.all_append]
        exact bool_and_join h rfl
  | remove id => exact treeOk_filter l _ h
  | clearAll => rfl
  | setName id v =>
    simp only [stepTree]
    cases hf : l.find? (fun s => s.id == id) with
    | none => exact h
    | some s =>
      have hs : snippetOk s = true :=
        (List.all_eq_true.mp h) s (List.mem_of_find?_eq_some hf)
      exact treeOk_updateSnippet l _ h (snippetOk_setName s v hs)
  | setText id v =>
    simp only [stepTree]
    cases hf : l.find? (fun s => s.id == id) with
    | none => exact h
    | some s =>
      have hs : snippetOk s = true :=
        (List.all_eq_true.mp h) s (List.mem_of_find?_eq_some hf)
      exact treeOk_updateSnippet l _ h (snippetOk_setText s v hs)
  | setVoice id v =>
    simp only [stepTree]
    cases hf : l.find? (fun s => s.id == id) with
    | none => exact h
    | some s =>
      have hs : snippetOk s = true :=
        (List.all_eq_true.mp h) s (List.mem_of_find?_eq_some hf)
      exact treeOk_updateSnippet l _ h (snippetOk_setVoice s v hs)
  | extract id freshId a b =>
    simp only [stepTree]
    cases hf : l.find? (fun s => s.id == id) with
    | none => exact h
    | some s =>
      have hs : snippetOk s = true :=
        (List.all_eq_true.mp h) s (List.mem_of_find?_eq_some hf)
      show treeOk (match handleExtractSubsection s freshId a b with
        | none => l
        | some s2 => updateSnippet l s2) = true
      cases hx : handleExtractSubsection s freshId a b with
      | none => exact h
      | some s2 =>
        exact treeOk_updateSnippet l _ h (snippetOk_extract s freshId a b s2 hx hs)
  | subSetName id subId v =>
    simp only [stepTree]
    cases hf : l.find? (fun s => s.id == id) with
    | none => exact h
    | some s =>
      have hs : snippetOk s = true :=
        (List.all_eq_true.mp h) s (List.mem_of_find?_eq_some hf)
      refine treeOk_updateSnippet l _ h (snippetOk_updateSubIn s subId _ ?_ hs)
      intro t ht
      cases t
      exact ht
  | subSetText id subId v =>
    simp only [stepTree]
    cases hf : l.find? (fun s => s.id == id) with
    | none => exact h
    | some s =>
      have hs : snippetOk s = true :=
        (List.all_eq_true.mp h) s (List.mem_of_find?_eq_some hf)
      refine treeOk_updateSnippet l _ h (snippetOk_updateSubIn s subId _ ?_ hs)
      intro t ht
      cases t
      exact ht
  | subSetVoice id subId v =>
    simp only [stepTree]
    cases hf : l.find? (fun s => s.id == id) with
    | none => exact h
    | some s =>
      have hs : snippetOk s = true :=
        (List.all_eq_true.mp h) s (List.mem_of_find?_eq_some hf)
      refine treeOk_updateSnippet l _ h (snippetOk_updateSubIn s subId _ ?_ hs)
      intro t ht
      cases t
      exact ht
  | subRemove id subId =>
    simp only [stepTree]
    cases hf : l.find? (fun s => s.id == id) with
    | none => exact h
    | some s =>
      have hs : snippetOk s = true :=
        (List.all_eq_true.mp h) s (List.mem_of_find?_eq_some hf)
      exact treeOk_updateSnippet l _ h (snippetOk_deleteSubsection s subId hs)
  | genStart id =>
    simp only [stepTree, generateSnippetStart]
    cases hf : l.find? (fun s => s.id == id) with
    | none => exact h
    | some s => exact treeOk_map_ite l id _ h (fun s hs => snippetOk_genStart s hs)
  | genOk id audio =>
    exact treeOk_map_ite l id _ h (fun s hs => snippetOk_genOk s audio hs)
  | genErr id msg =>
    exact treeOk_map_ite l id _ h (fun s hs => snippetOk_genErr s msg hs)
  | subGenStart id subId =>
    simp only [stepTree, generateSubsectionStart]
    cases hf : l.find? (fun s => s.id == id) with
    | none => exact h
    | some s =>
      show treeOk (match s.subsections.find? (fun t => t.id == subId) with
        | none => l
        | some _ =>
          l.map (fun s =>
            if s.id == id then
              { s with subsections := s.subsections.map (fun t =>
                  if t.id == subId then { t with status := .generating, error := none }
                  else t) }
            else s)) = true
      cases hg : s.subsections.find? (fun t => t.id == subId) with
      | none => exact h
      | some t =>
        refine treeOk_map_ite l id _ h ?_
        intro x hx
        exact snippetOk_updateSubIn x subId _ (fun t ht => subOk_genStart t ht) hx
  | subGenOk id subId audio =>
    refine treeOk_map_ite l id _ h ?_
    intro x hx
    exact snippetOk_updateSubIn x subId _ (fun t ht => subOk_genOk t audio ht) hx
  | subGenErr id subId msg =>
    refine treeOk_map_ite l id _ h ?_
    intro x hx
    exact snippetOk_updateSubIn x subId _ (fun t ht => subOk_genErr t msg ht) hx

/-- Helper: every event sequence from the empty initial list keeps the
invariant. -/
theorem foldl_stepTree_ok (evs : List TreeEvent) :
    ∀ l, treeOk l = true → treeOk (evs.foldl stepTree l) = true := by
  induction evs with
  | nil => intro l h; exact h
  | cons e rest ih => intro l h; exact ih _ (stepTree_preserves l e h)

/-- Helper: a failing section completion never writes any audio field. -/
theorem audioView_finishErr (l : List Snippet) (id msg : String) :
    (generateSnippetFinishErr l id msg).map
        (fun s => (s.audio, s.subsections.map Subsection.audio)) =
      l.map (fun s => (s.audio, s.subsections.map Subsection.audio)) := by
  unfold generateSnippetFinishErr
  rw [List.map_map]
  refine List.map_congr_left ?_
  intro s _
  show (fun s => (s.audio, s.subsections.map Subsection.audio))
      (if s.id == id then { s with status := Status.error, error := some msg } else s) =
    (s.audio, s.subsections.map Subsection.audio)
  split
  · cases s; rfl
  · rfl

/-- Helper: a failing subsection completion never writes any audio field. -/
theorem audioView_subFinishErr (l : List Snippet) (secId subId msg : String) :
    (generateSubsectionFinishErr l secId subId msg).map
        (fun s => (s.audio, s.subsections.map Subsection.audio)) =
      l.map (fun s => (s.audio, s.subsections.map Subsection.audio)) := by
  unfold generateSubsectionFinishErr
  rw [List.map_map]
  refine List.map_congr_left ?_
  intro s _
  show (fun s => (s.audio, s.subsections.map Subsection.audio))
      (if s.id == secId then
        { s with subsections := s.subsections.map (fun t =>
            if t.id == subId then { t with status := Status.error, error := some msg }
            else t) }
      else s) =
    (s.audio, s.subsections.map Subsection.audio)
  split
  · cases s with
    | mk sid nm tx vc au st er subs =>
      refine Prod.ext rfl ?_
      show (subs.map (fun t =>
          if t.id == subId then { t with status := Status.error, error := some msg }
          else t)).map Subsection.audio = subs.map Subsection.audio
      rw [List.map_map]
      refine List.map_congr_left ?_
      intro t _
      show Subsection.audio
          (if t.id == subId then { t with status := Status.error, error := some msg }
          else t) = t.audio
      split
      · cases t; rfl
      · rfl
  · rfl

/-- C2 (amended): in every state reachable by any sequence of tree edits and
generation-call completions (overlapping completions on the same node
included), every section and subsection satisfies: status=Success implies a
non-null artifact, and status=Error implies a non-null errorMessage; and a
failing completion never writes any artifact field, so on Error the artifact
retains whatever value it held before the failing call.  (The original
claim's further condition — Success implies errorMessage is null — fails
under overlapping completions; see the counterexample.) -/
theorem c2_reachable_invariant :
    (∀ evs, treeOk (reachTree evs) = true) ∧
    (∀ l id msg, (generateSnippetFinishErr l id msg).map
        (fun s => (s.audio, s.subsections.map Subsection.audio)) =
      l.map (fun s => (s.audio, s.subsections.map Subsection.audio))) ∧
    (∀ l secId subId msg, (generateSubsectionFinishErr l secId subId msg).map
        (fun s => (s.audio, s.subsections.map Subsection.audio)) =
      l.map (fun s => (s.audio, s.subsections.map Subsection.audio))) :=
  ⟨fun evs => foldl_stepTree_ok evs [] rfl, audioView_finishErr, audioView_subFinishErr⟩

/-- C2 counterexample: two overlapping `generate` calls on node `"a"` — both
issued, then the first resolves with an error and the second resolves
successfully.  The reachable final state has status `success` together with
a non-null errorMessage `"boom"`, refuting `Success ⇒ errorMessage = null`
as an invariant of all reachable states. -/
theorem c2_success_with_error_counterexample :
    (reachTree [.add "a" "hello" .kore 0 5, .genStart "a", .genStart "a",
                .genErr "a" "boom", .genOk "a" ⟨[0], "u", 1⟩]).map
        (fun s => (s.status, s.error)) = [(Status.success, some "boom")] := by
  decide

/-- Helper: mapping an id-preserving update over the matching nodes moves
`find?` through the map. -/
theorem find?_map_update (l : List Snippet) (id : String) (g : Snippet → Snippet)
    (hg : ∀ t, (g t).id = t.id) :
    ∀ s, l.find? (fun x => x.id == id) = some s →
      (l.map (fun x => if x.id == id then g x else x)).find? (fun x => x.id == id) =
        some (g s) := by
  induction l with
  | nil => intro s h; simp at h
  | cons x rest ih =>
    intro s h
    by_cases hx : (x.id == id) = true
    · have hx2 : ((g x).id == id) = true := by rw [hg x]; exact hx
      have hsx : x = s := by
        rw [List.find?_cons_of_pos (p := fun (y : Snippet) => y.id == id) rest hx] at h
        exact Option.some.inj h
      subst hsx
      rw [List.map_cons, if_pos hx]
      exact List.find?_cons_of_pos (p := fun (y : Snippet) => y.id == id) _ hx2
    · rw [List.find?_cons_of_neg (p := fun (y : Snippet) => y.id == id) rest hx] at h
      rw [List.map_cons, if_neg hx,
        List.find?_cons_of_neg (p := fun (y : Snippet) => y.id == id) _ hx]
      exact ih s h

/-- Helper: the subsection analogue of `find?_map_update`. -/
theorem find?_map_update_sub (l : List Subsection) (id : String)
    (g : Subsection → Subsection) (hg : ∀ t, (g t).id = t.id) :
    ∀ s, l.find? (fun x => x.id == id) = some s →
      (l.map (fun x => if x.id == id then g x else x)).find? (fun x => x.id == id) =
        some (g s) := by
  induction l with
  | nil => intro s h; simp at h
  | cons x rest ih =>
    intro s h
    by_cases hx : (x.id == id) = true
    · have hx2 : ((g x).id == id) = true := by rw [hg x]; exact hx
      have hsx : x = s := by
        rw [List.find?_cons_of_pos (p := fun (y : Subsection) => y.id == id) rest hx] at h
        exact Option.some.inj h
      subst hsx
      rw [List.map_cons, if_pos hx]
      exact List.find?_cons_of_pos (p := fun (y : Subsection) => y.id == id) _ hx2
    · rw [List.find?_cons_of_neg (p := fun (y : Subsection) => y.id == id) rest hx] at h
      rw [List.map_cons, if_neg hx,
        List.find?_cons_of_neg (p := fun (y : Subsection) => y.id == id) _ hx]
      exact ih s h

/-- Helper: `find?` after the issue phase of a `generateSnippet` call. -/
theorem find?_genStart (l : List Snippet) (id : String) (s : Snippet)
    (h : l.find? (fun x => x.id == id) = some s) :
    (generateSnippetStart l id).find? (fun x => x.id == id) =
      some { s with status := Status.generating, error := none } := by
  unfold generateSnippetStart
  rw [h]
  exact find?_map_update l id
    (fun x => { x with status := Status.generating, error := none }) (fun t => rfl) s h

/-- C1 counterexample: a section whose text is whitespace-only.  `generate`
does not fail with `EmptyInput`: the external synthesis request is still
issued, carrying the raw whitespace text, and the node's status is changed to
`generating` — even though the trimmed text is empty. -/
theorem c1_whitespace_counterexample :
    jsTrim "   " = "" ∧
    generateSnippetRequest
        [{ id := "a", name := "Section 1", text := "   ", voice := VoiceName.kore,
           audio := none, status := Status.idle, error := none, subsections := [] }] "a" =
      some ("   ", VoiceName.kore) ∧
    (generateSnippetStart
        [{ id := "a", name := "Section 1", text := "   ", voice := VoiceName.kore,
           audio := none, status := Status.idle, error := none, subsections := [] }] "a").map
        (fun s => (s.status, s.error)) = [(Status.generating, none)] := by
  decide

/-- C1 (amended): per-node `generate(nodeId)` performs no empty-text
validation at all.  Whenever the node exists — whitespace-only text
included — it issues the external synthesis call with the node's raw text
and voice, and writes status=Generating with errorMessage cleared; it never
fails with `EmptyInput` and does not leave the node untouched.  (The
trimmed-text `EmptyInput`-style guard exists only in the document-level
`handleGenerate`.) -/
theorem c1_generate_no_empty_guard :
    (∀ l id s, l.find? (fun x => x.id == id) = some s →
      generateSnippetRequest l id = some (s.text, s.voice) ∧
      (generateSnippetStart l id).find? (fun x => x.id == id) =
        some { s with status := Status.generating, error := none }) ∧
    (∀ l secId subId sec t,
      l.find? (fun x => x.id == secId) = some sec →
      sec.subsections.find? (fun x => x.id == subId) = some t →
      generateSubsectionRequest l secId subId = some (t.text, t.voice) ∧
      ∃ sec2,
        (generateSubsectionStart l secId subId).find? (fun x => x.id == secId) =
          some sec2 ∧
        sec2.subsections.find? (fun x => x.id == subId) =
          some { t with status := Status.generating, error := none }) := by
  constructor
  · intro l id s h
    constructor
    · unfold generateSnippetRequest
      rw [h]
      rfl
    · exact find?_genStart l id s h
  · intro l secId subId sec t hsec hsub
    have hstart : generateSubsectionStart l secId subId =
        l.map (fun (s : Snippet) =>
          if s.id == secId then
            { s with subsections := s.subsections.map (fun (x : Subsection) =>
                if x.id == subId then { x with status := Status.generating, error := none }
                else x) }
          else s) := by
      unfold generateSubsectionStart
      rw [hsec]
      show (match sec.subsections.find? (fun x => x.id == subId) with
        | none => l
        | some _ =>
          l.map (fun (s : Snippet) =>
            if s.id == secId then
              { s with subsections := s.subsections.map (fun (x : Subsection) =>
                  if x.id == subId then { x with status := Status.generating, error := none }
                  else x) }
            else s)) = _
      rw [hsub]
    constructor
    · unfold generateSubsectionRequest
      rw [hsec]
      show (sec.subsections.find? (fun x => x.id == subId)).map
          (fun u => (u.text, u.voice)) = some (t.text, t.voice)
      rw [hsub]
      rfl
    · rw [hstart]
      refine ⟨_, find?_map_update l secId
        (fun (s : Snippet) =>
          { s with subsections := s.subsections.map (fun (x : Subsection) =>
              if x.id == subId then { x with status := Status.generating, error := none }
              else x) })
        (fun u => rfl) sec hsec, ?_⟩
      exact find?_map_update_sub sec.subsections subId
        (fun x => { x with status := Status.generating, error := none })
        (fun u => rfl) t hsub

/-- C1 witness: the amended theorem applied to the concrete whitespace-only
section. -/
theorem c1_generate_no_empty_guard_witness :
    generateSnippetRequest
        [{ id := "a", name := "Section 1", text := " x ", voice := VoiceName.puck,
           audio := none, status := Status.idle, error := none, subsections := [] }] "a" =
      some (" x ", VoiceName.puck) ∧
    (generateSnippetStart
        [{ id := "a", name := "Section 1", text := " x ", voice := VoiceName.puck,
           audio := none, status := Status.idle, error := none, subsections := [] }] "a").find?
        (fun x => x.id == "a") =
      some { id := "a", name := "Section 1", text := " x ", voice := VoiceName.puck,
             audio := none, status := Status.generating, error := none, subsections := [] } :=
  c1_generate_no_empty_guard.1
    [{ id := "a", name := "Section 1", text := " x ", voice := VoiceName.puck,
       audio := none, status := Status.idle, error := none, subsections := [] }] "a"
    { id := "a", name := "Section 1", text := " x ", voice := VoiceName.puck,
      audio := none, status := Status.idle, error := none, subsections := [] }
    (by decide)

/-- C3: `extractChild` fails (creating no child) exactly when the selection is
collapsed (`start = end`) or the selected substring is blank after trimming;
otherwise it returns the parent with exactly one child appended, named
`Part M` for M = the parent's current child count + 1, whose text is the
selected substring and whose voice is the parent's current voice, and the
parent's text (and every other parent field) is unchanged. -/
theorem c3_extract_child :
    ∀ (sec : Snippet) (freshId : String) (a b : Nat),
      (handleExtractSubsection sec freshId a b = none ↔
        a = b ∨ jsTrim (jsSubstring sec.text a b) = "") ∧
      (∀ s2, handleExtractSubsection sec freshId a b = some s2 →
        s2.text = sec.text ∧ s2.name = sec.name ∧ s2.id = sec.id ∧
        s2.voice = sec.voice ∧ s2.audio = sec.audio ∧ s2.status = sec.status ∧
        s2.error = sec.error ∧
        s2.subsections = sec.subsections ++
          [{ id := freshId
             name := "Part " ++ toString (sec.subsections.length + 1)
             text := jsSubstring sec.text a b
             voice := sec.voice
             audio := none
             status := Status.idle
             error := none }]) := by
  intro sec freshId a b
  constructor
  · unfold handleExtractSubsection
    by_cases hab : a = b
    · simp [hab]
    · by_cases hbl : jsTrim (jsSubstring sec.text a b) = ""
      · simp [hab, hbl, String.isEmpty_iff]
      · simp [hab, hbl, String.isEmpty_iff]
  · intro s2 h
    unfold handleExtractSubsection at h
    split at h
    · exact absurd h (by simp)
    · split at h
      · exact absurd h (by simp)
      · injection h with h
        subst h
        exact ⟨rfl, rfl, rfl, rfl, rfl, rfl, rfl, rfl⟩

/-- Dispatch of one generation call's resolution: a successful call writes
success/audio, a failed one writes error/message. -/
def finishSnippet (snippets : List Snippet) (id : String) :
    Except String GeneratedAudio → List Snippet
  | .ok audio => generateSnippetFinishOk snippets id audio
  | .error msg => generateSnippetFinishErr snippets id msg

/-- Helper: `find?` after a resolution write. -/
theorem find?_finishSnippet (l : List Snippet) (id : String) (s : Snippet)
    (r : Except String GeneratedAudio)
    (h : l.find? (fun x => x.id == id) = some s) :
    (finishSnippet l id r).find? (fun x => x.id == id) =
      some (match r with
        | .ok audio => { s with status := Status.success, audio := some audio }
        | .error msg => { s with status := Status.error, error := some msg }) := by
  cases r with
  | ok audio =>
    exact find?_map_update l id
      (fun x => { x with status := Status.success, audio := some audio }) (fun t => rfl) s h
  | error msg =>
    exact find?_map_update l id
      (fun x => { x with status := Status.error, error := some msg }) (fun t => rfl) s h

/-- C9: two overlapping `generate(id)` calls on one node.  Both issue phases
are the same unguarded state write (so the order in which the calls are
issued is immaterial), and each call independently applies its own resolution
write; after both resolutions the node's status and payload are those written
by the last-resolving call, whatever it is. -/
theorem c9_last_resolver_wins :
    ∀ l id s (rFirst rLast : Except String GeneratedAudio),
      l.find? (fun x => x.id == id) = some s →
      ∃ n, (finishSnippet (finishSnippet
              (generateSnippetStart (generateSnippetStart l id) id) id rFirst)
              id rLast).find? (fun x => x.id == id) = some n ∧
        (∀ a, rLast = .ok a → n.status = Status.success ∧ n.audio = some a) ∧
        (∀ m, rLast = .error m → n.status = Status.error ∧ n.error = some m) := by
  intro l id s r1 r2 h
  have h1 := find?_genStart l id s h
  have h2 := find?_genStart _ id _ h1
  have h3 := find?_finishSnippet _ id _ r1 h2
  have h4 := find?_finishSnippet _ id _ r2 h3
  refine ⟨_, h4, ?_, ?_⟩
  · intro a ha
    subst ha
    exact ⟨rfl, rfl⟩
  · intro m hm
    subst hm
    exact ⟨rfl, rfl⟩

/-- C9 witness: calls resolving out of issue order (the first-issued error
resolution lands first, the success resolution lands last) leave the node
reflecting the later-resolving successful call. -/
theorem c9_last_resolver_wins_witness :
    ∃ n, (finishSnippet (finishSnippet
            (generateSnippetStart (generateSnippetStart
              [{ id := "a", name := "S", text := "t", voice := VoiceName.kore,
                 audio := none, status := Status.idle, error := none,
                 subsections := [] }] "a") "a") "a" (Except.error "x")) "a"
            (Except.ok ⟨[2], "u", 5⟩)).find? (fun x => x.id == "a") = some n ∧
      (∀ a, (Except.ok (⟨[2], "u", 5⟩ : GeneratedAudio) :
              Except String GeneratedAudio) = Except.ok a →
        n.status = Status.success ∧ n.audio = some a) ∧
      (∀ m, (Except.ok (⟨[2], "u", 5⟩ : GeneratedAudio) :
              Except String GeneratedAudio) = Except.error m →
        n.status = Status.error ∧ n.error = some m) :=
  c9_last_resolver_wins
    [{ id := "a", name := "S", text := "t", voice := VoiceName.kore,
       audio := none, status := Status.idle, error := none, subsections := [] }] "a"
    { id := "a", name := "S", text := "t", voice := VoiceName.kore,
      audio := none, status := Status.idle, error := none, subsections := [] }
    (Except.error "x") (Except.ok ⟨[2], "u", 5⟩) (by decide)

/-! ## Document-level state

The `App` component's relevant `useState` cells, gathered into one record.
`lastGeneratedHash` holds the `JSON.stringify` fingerprint recorded at the
last successful document generation; `ContentHash` models those strings:
`JSON.stringify` is injective on each of the three record shapes the code
builds, the three shapes are pairwise distinct strings (their key sets
differ), and the empty string (initial value, mode-switch reset value and
the transcription-mode hash) equals none of them, so string equality of the
fingerprints is exactly structural equality of this type. -/

/-- The `getContentHash` result: one shape per mode, `blank` for the empty
string (transcription mode, and the reset/initial value). -/
inductive ContentHash
  | blank
  | narrationHash (text : String) (voice : VoiceName)
  | dialogueHash (script : List ScriptLine) (characters : List Character)
  | cloningHash (text : String) (refName : Option String)
deriving DecidableEq, Repr

/-- The `App` component's document-level state. -/
structure DocState where
  mode : AppMode
  error : Option String
  generatedAudio : Option GeneratedAudio
  lastGeneratedHash : ContentHash
  appName : String
  featureName : String
  narrationText : String
  narrationVoice : VoiceName
  characters : List Character
  script : List ScriptLine
  cloningText : String
  cloningReference : Option FileRef
  transcriptionFile : Option FileRef
  transcriptionResult : String
deriving DecidableEq, Repr

/-- The `getContentHash` helper: narration hashes `{text, voice}`, dialogue
`{script, characters}`, cloning `{text, ref: cloningReference?.name}`, and
transcription returns the empty string. -/
def getContentHash (s : DocState) : ContentHash :=
  match s.mode with
  | .narration => .narrationHash s.narrationText s.narrationVoice
  | .dialogue => .dialogueHash s.script s.characters
  | .cloning => .cloningHash s.cloningText (s.cloningReference.map FileRef.name)
  | .transcription => .blank

/-- The `isStale` flag:
`!!generatedAudio && currentContentHash !== lastGeneratedHash && mode !== 'TRANSCRIPTION'`. -/
def isStale (s : DocState) : Bool :=
  s.generatedAudio.isSome && decide (¬ getContentHash s = s.lastGeneratedHash) &&
    decide (¬ s.mode = AppMode.transcription)

/-- The shared tail of `handleGenerate` once a synthesis/decode outcome is in
hand: a failure is caught and recorded as the error message; a success
attaches the artifact and records the fingerprint captured at the start of
the run. -/
def applySynth (s0 : DocState) (hash : ContentHash)
    (synth : Except String GeneratedAudio) : DocState :=
  match synth with
  | .error m => { s0 with error := some m }
  | .ok audio => { s0 with generatedAudio := some audio, lastGeneratedHash := hash }

/-- The `handleGenerate` handler.  It first runs
`setError(null); setGeneratedAudio(null)`, then branches on the mode:
validation failures are thrown and caught (recorded as the error), otherwise
the synthesis/decode outcome (the `synth` oracle, covering the external call
and `decodeAudioData`/`bufferToWavBlob`) is applied; transcription uses its
own oracle and writes `transcriptionResult` only. -/
def handleGenerate (s : DocState) (synth : Except String GeneratedAudio)
    (transcribe : Except String String) : DocState :=
  let s0 : DocState := { s with error := none, generatedAudio := none }
  match s.mode with
  | .narration =>
    if jsTrim s.narrationText = "" then { s0 with error := some "Please enter some text." }
    else applySynth s0 (getContentHash s) synth
  | .dialogue =>
    if s.script.length = 0 then { s0 with error := some "Script cannot be empty." }
    else applySynth s0 (getContentHash s) synth
  | .cloning =>
    if jsTrim s.cloningText = "" then
      { s0 with error := some "Please enter text for the cloned voice." }
    else
      match s.cloningReference with
      | none => { s0 with error := some "Please upload a reference audio file." }
      | some _ => applySynth s0 (getContentHash s) synth
  | .transcription =>
    match s.transcriptionFile with
    | none => { s0 with error := some "Please upload an audio file to transcribe." }
    | some _ =>
      match transcribe with
      | .error m => { s0 with error := some m }
      | .ok t => { s0 with transcriptionResult := t }

/-- The condition under which `handleGenerate` reaches its synthesis/decode
step (all mode-specific validations pass; transcription never reaches it). -/
def reachesSynthesis (s : DocState) : Bool :=
  match s.mode with
  | .narration => !(jsTrim s.narrationText == "")
  | .dialogue => !(s.script.length == 0)
  | .cloning => !(jsTrim s.cloningText == "") && s.cloningReference.isSome
  | .transcription => false

/-- The shared body of every mode button:
`setMode(m); setGeneratedAudio(null); setError(null); setLastGeneratedHash('')`. -/
def switchMode (s : DocState) (m : AppMode) : DocState :=
  { s with mode := m, generatedAudio := none, error := none,
           lastGeneratedHash := ContentHash.blank }

/-- The master-text editor's `onChange` (`setNarrationText`). -/
def setNarrationText (s : DocState) (v : String) : DocState :=
  { s with narrationText := v }

/-- The narration `VoiceSelector`'s `onSelect` (`setNarrationVoice`). -/
def setNarrationVoice (s : DocState) (v : VoiceName) : DocState :=
  { s with narrationVoice := v }

/-- A dialogue script edit (`setScript`, whole-value form). -/
def setScript (s : DocState) (v : List ScriptLine) : DocState :=
  { s with script := v }

/-- A dialogue cast edit (`setCharacters`, whole-value form). -/
def setCharacters (s : DocState) (v : List Character) : DocState :=
  { s with characters := v }

/-- The cloning target-text editor's `onChange` (`setCloningText`). -/
def setCloningText (s : DocState) (v : String) : DocState :=
  { s with cloningText := v }

/-- A cloning reference upload/record/clear (`setCloningReference`). -/
def setCloningReference (s : DocState) (v : Option FileRef) : DocState :=
  { s with cloningReference := v }

/-- A concrete app-like document state used by the closed-instance theorems. -/
def sampleDoc : DocState :=
  { mode := .narration
    error := none
    generatedAudio := none
    lastGeneratedHash := .blank
    appName := "MyApp"
    featureName := "Tutorial"
    narrationText := "Enter text here"
    narrationVoice := .kore
    characters := [{ id := "1", name := "Speaker 1", voice := .kore },
                   { id := "2", name := "Speaker 2", voice := .puck }]
    script := [{ id := "s1", characterId := "1", text := "Hello!" }]
    cloningText := "Enter text"
    cloningReference := none
    transcriptionFile := none
    transcriptionResult := "" }

/-- Helper: when validation passes, a failing synthesis/decode run records the
message and ends with a cleared artifact; nothing else changes. -/
theorem handleGenerate_synthFail (s : DocState) (tr : Except String String) (m : String)
    (hr : reachesSynthesis s = true) :
    handleGenerate s (.error m) tr = { s with error := some m, generatedAudio := none } := by
  obtain ⟨mode, er, ga, lh, an, fn, nt, nv, ch, sc, ct, cr, tf, trr⟩ := s
  cases mode with
  | narration =>
    have ht : ¬ jsTrim nt = "" := by simpa [reachesSynthesis] using hr
    simp [handleGenerate, applySynth, ht]
  | dialogue =>
    have ht : ¬ sc.length = 0 := by simpa [reachesSynthesis] using hr
    simp [handleGenerate, applySynth, ht]
  | cloning =>
    have ht : ¬ jsTrim ct = "" ∧ cr.isSome = true := by
      simpa [reachesSynthesis, Bool.and_eq_true] using hr
    obtain ⟨f, hf⟩ := Option.isSome_iff_exists.mp ht.2
    subst hf
    simp [handleGenerate, applySynth, ht.1]
  | transcription => simp [reachesSynthesis] at hr

/-- Helper: when validation passes, a successful run attaches the artifact,
clears the error and records the fingerprint captured at the start. -/
theorem handleGenerate_synthOk (s : DocState) (tr : Except String String)
    (a : GeneratedAudio) (hr : reachesSynthesis s = true) :
    handleGenerate s (.ok a) tr =
      { s with error := none, generatedAudio := some a,
               lastGeneratedHash := getContentHash s } := by
  obtain ⟨mode, er, ga, lh, an, fn, nt, nv, ch, sc, ct, cr, tf, trr⟩ := s
  cases mode with
  | narration =>
    have ht : ¬ jsTrim nt = "" := by simpa [reachesSynthesis] using hr
    simp [handleGenerate, applySynth, ht]
  | dialogue =>
    have ht : ¬ sc.length = 0 := by simpa [reachesSynthesis] using hr
    simp [handleGenerate, applySynth, ht]
  | cloning =>
    have ht : ¬ jsTrim ct = "" ∧ cr.isSome = true := by
      simpa [reachesSynthesis, Bool.and_eq_true] using hr
    obtain ⟨f, hf⟩ := Option.isSome_iff_exists.mp ht.2
    subst hf
    simp [handleGenerate, applySynth, ht.1]
  | transcription => simp [reachesSynthesis] at hr

/-- Helper: whatever the mode and validation outcome, a run whose synthesis
oracle fails ends with a null artifact and an unchanged fingerprint
baseline. -/
theorem handleGenerate_fail_clears (s : DocState) (tr : Except String String)
    (m : String) :
    (handleGenerate s (.error m) tr).generatedAudio = none ∧
    (handleGenerate s (.error m) tr).lastGeneratedHash = s.lastGeneratedHash := by
  obtain ⟨mode, er, ga, lh, an, fn, nt, nv, ch, sc, ct, cr, tf, trr⟩ := s
  cases mode with
  | narration =>
    by_cases ht : jsTrim nt = "" <;> simp [handleGenerate, applySynth, ht]
  | dialogue =>
    by_cases ht : sc.length = 0 <;> simp [handleGenerate, applySynth, ht]
  | cloning =>
    by_cases ht : jsTrim ct = ""
    · simp [handleGenerate, applySynth, ht]
    · cases cr <;> simp [handleGenerate, applySynth, ht]
  | transcription =>
    cases tf with
    | none => simp [handleGenerate]
    | some f => cases tr <;> simp [handleGenerate]

/-- C4 counterexample: a document state holding a prior artifact, in narration
mode with non-blank text.  A failing synthesis run does not leave the prior
artifact untouched: `handleGenerate` cleared it at the start of the run, so
after the failure the document artifact is null. -/
theorem c4_prior_artifact_lost_counterexample :
    ({ sampleDoc with generatedAudio := some ⟨[7], "u", 3⟩ } : DocState).generatedAudio =
      some ⟨[7], "u", 3⟩ ∧
    (handleGenerate { sampleDoc with generatedAudio := some ⟨[7], "u", 3⟩ }
        (Except.error "synthesis failed") (Except.ok "t")).generatedAudio = none ∧
    (handleGenerate { sampleDoc with generatedAudio := some ⟨[7], "u", 3⟩ }
        (Except.error "synthesis failed") (Except.ok "t")).error =
      some "synthesis failed" := by
  decide

/-- C4 (amended): document-level generation clears the artifact and the error
at the start of every run; when the synthesis or decode step fails the run
therefore ends with a null artifact (the prior artifact is lost, not
retained) and the failure's message recorded as the error; the fingerprint
baseline is written only by the success branch — any failing run leaves it
unchanged, and a successful run records the current fingerprint, clears the
error and attaches the new artifact. -/
theorem c4_doc_generation_failure :
    ∀ (s : DocState) (tr : Except String String) (m : String) (a : GeneratedAudio),
      (handleGenerate s (.error m) tr).generatedAudio = none ∧
      (handleGenerate s (.error m) tr).lastGeneratedHash = s.lastGeneratedHash ∧
      (reachesSynthesis s = true →
        (handleGenerate s (.error m) tr).error = some m) ∧
      (reachesSynthesis s = true →
        (handleGenerate s (.ok a) tr).generatedAudio = some a ∧
        (handleGenerate s (.ok a) tr).lastGeneratedHash = getContentHash s ∧
        (handleGenerate s (.ok a) tr).error = none) := by
  intro s tr m a
  refine ⟨(handleGenerate_fail_clears s tr m).1, (handleGenerate_fail_clears s tr m).2,
    ?_, ?_⟩
  · intro hr
    rw [handleGenerate_synthFail s tr m hr]
  · intro hr
    rw [handleGenerate_synthOk s tr a hr]
    exact ⟨rfl, rfl, rfl⟩

/-- C10: each of the four mode buttons clears the document artifact, the
error message and the last-generated fingerprint baseline, so immediately
after every mode switch `isStale` is false. -/
theorem c10_mode_switch_never_stale :
    ∀ (s : DocState) (m : AppMode),
      (switchMode s m).generatedAudio = none ∧
      (switchMode s m).error = none ∧
      (switchMode s m).lastGeneratedHash = ContentHash.blank ∧
      isStale (switchMode s m) = false := by
  intro s m
  exact ⟨rfl, rfl, rfl, rfl⟩

/-- Helper: the characterization of `isStale` as a proposition. -/
theorem isStale_iff (s : DocState) :
    isStale s = true ↔
      s.generatedAudio.isSome = true ∧ getContentHash s ≠ s.lastGeneratedHash ∧
        s.mode ≠ AppMode.transcription := by
  simp [isStale, Bool.and_eq_true, and_assoc]

/-- Helper: the fingerprint only reads the mode and its tracked inputs. -/
theorem getContentHash_synthOk (s : DocState) (tr : Except String String)
    (a : GeneratedAudio) (hr : reachesSynthesis s = true) :
    getContentHash (handleGenerate s (.ok a) tr) = getContentHash s := by
  rw [handleGenerate_synthOk s tr a hr]
  obtain ⟨mode, er, ga, lh, an, fn, nt, nv, ch, sc, ct, cr, tf, trr⟩ := s
  cases mode <;> rfl

/-- Helper: right after any successful document generation the document is
not stale. -/
theorem isStale_after_success (s : DocState) (tr : Except String String)
    (a : GeneratedAudio) (hr : reachesSynthesis s = true) :
    isStale (handleGenerate s (.ok a) tr) = false := by
  rw [Bool.eq_false_iff]
  intro hst
  obtain ⟨hga, hne, hmd⟩ := (isStale_iff _).mp hst
  apply hne
  rw [getContentHash_synthOk s tr a hr, handleGenerate_synthOk s tr a hr]

/-- C5: `isStale` is true exactly when a document artifact exists, the current
mode-specific fingerprint differs from the one recorded at the last
successful document generation, and the active mode is not transcription.
Consequently, after a successful document generation the flag is false; any
edit that changes a tracked field of the active mode (narration text/voice,
dialogue script/cast, cloning text/reference identity) flips it to true; and
a successful regeneration resets it to false. -/
theorem c5_staleness_characterization :
    (∀ s : DocState, isStale s = true ↔
      s.generatedAudio.isSome = true ∧ getContentHash s ≠ s.lastGeneratedHash ∧
        s.mode ≠ AppMode.transcription) ∧
    (∀ (s : DocState) (tr : Except String String) (a : GeneratedAudio),
      reachesSynthesis s = true → isStale (handleGenerate s (.ok a) tr) = false) ∧
    (∀ (s : DocState) tr a v, reachesSynthesis s = true → s.mode = .narration →
      v ≠ s.narrationText →
      isStale (setNarrationText (handleGenerate s (.ok a) tr) v) = true) ∧
    (∀ (s : DocState) tr a v, reachesSynthesis s = true → s.mode = .narration →
      v ≠ s.narrationVoice →
      isStale (setNarrationVoice (handleGenerate s (.ok a) tr) v) = true) ∧
    (∀ (s : DocState) tr a v, reachesSynthesis s = true → s.mode = .dialogue →
      v ≠ s.script →
      isStale (setScript (handleGenerate s (.ok a) tr) v) = true) ∧
    (∀ (s : DocState) tr a v, reachesSynthesis s = true → s.mode = .dialogue →
      v ≠ s.characters →
      isStale (setCharacters (handleGenerate s (.ok a) tr) v) = true) ∧
    (∀ (s : DocState) tr a v, reachesSynthesis s = true → s.mode = .cloning →
      v ≠ s.cloningText →
      isStale (setCloningText (handleGenerate s (.ok a) tr) v) = true) ∧
    (∀ (s : DocState) tr a r, reachesSynthesis s = true → s.mode = .cloning →
      r.map FileRef.name ≠ s.cloningReference.map FileRef.name →
      isStale (setCloningReference (handleGenerate s (.ok a) tr) r) = true) ∧
    (∀ (s : DocState) tr a v tr2 a2, reachesSynthesis s = true →
      s.mode = .narration → jsTrim v ≠ "" →
      isStale (handleGenerate (setNarrationText (handleGenerate s (.ok a) tr) v)
        (.ok a2) tr2) = false) := by
  refine ⟨isStale_iff, isStale_after_success, ?_, ?_, ?_, ?_, ?_, ?_, ?_⟩
  · intro s tr a v hr hm hv
    rw [handleGenerate_synthOk s tr a hr]
    obtain ⟨mode, er, ga, lh, an, fn, nt, nv, ch, sc, ct, cr, tf, trr⟩ := s
    dsimp only at hm hv
    subst hm
    rw [isStale_iff]
    refine ⟨rfl, ?_, by exact fun h2 => nomatch h2⟩
    simp [setNarrationText, getContentHash, hv]
  · intro s tr a v hr hm hv
    rw [handleGenerate_synthOk s tr a hr]
    obtain ⟨mode, er, ga, lh, an, fn, nt, nv, ch, sc, ct, cr, tf, trr⟩ := s
    dsimp only at hm hv
    subst hm
    rw [isStale_iff]
    refine ⟨rfl, ?_, by exact fun h2 => nomatch h2⟩
    simp [setNarrationVoice, getContentHash, hv]
  · intro s tr a v hr hm hv
    rw [handleGenerate_synthOk s tr a hr]
    obtain ⟨mode, er, ga, lh, an, fn, nt, nv, ch, sc, ct, cr, tf, trr⟩ := s
    dsimp only at hm hv
    subst hm
    rw [isStale_iff]
    refine ⟨rfl, ?_, by exact fun h2 => nomatch h2⟩
    simp [setScript, getContentHash, hv]
  · intro s tr a v hr hm hv
    rw [handleGenerate_synthOk s tr a hr]
    obtain ⟨mode, er, ga, lh, an, fn, nt, nv, ch, sc, ct, cr, tf, trr⟩ := s
    dsimp only at hm hv
    subst hm
    rw [isStale_iff]
    refine ⟨rfl, ?_, by exact fun h2 => nomatch h2⟩
    simp [setCharacters, getContentHash, hv]
  · intro s tr a v hr hm hv
    rw [handleGenerate_synthOk s tr a hr]
    obtain ⟨mode, er, ga, lh, an, fn, nt, nv, ch, sc, ct, cr, tf, trr⟩ := s
    dsimp only at hm hv
    subst hm
    rw [isStale_iff]
    refine ⟨rfl, ?_, by exact fun h2 => nomatch h2⟩
    simp [setCloningText, getContentHash, hv]
  · intro s tr a r hr hm hv
    rw [handleGenerate_synthOk s tr a hr]
    obtain ⟨mode, er, ga, lh, an, fn, nt, nv, ch, sc, ct, cr, tf, trr⟩ := s
    dsimp only at hm hv
    subst hm
    rw [isStale_iff]
    refine ⟨rfl, ?_, by exact fun h2 => nomatch h2⟩
    simp [setCloningReference, getContentHash, hv]
  · intro s tr a v tr2 a2 hr hm hv
    apply isStale_after_success
    rw [handleGenerate_synthOk s tr a hr]
    obtain ⟨mode, er, ga, lh, an, fn, nt, nv, ch, sc, ct, cr, tf, trr⟩ := s
    dsimp only at hm hv
    subst hm
    simp [reachesSynthesis, setNarrationText, hv]

/-! ## geminiService: cloned-voice generation

The external API calls are oracles: `tts voice text` is the optional
`inlineData.data` of `generateSingleVoice`'s first candidate part (or a
rejection), and `native` is the cloning model's response — an optional parts
array, each part with optional inline data (or a rejection). -/

/-- The scan of `generateClonedSpeech`'s first attempt over the response
parts: the first part holding non-empty (truthy) inline data wins. -/
def extractFirstAudio : List (Option String) → Option String
  | [] => none
  | none :: rest => extractFirstAudio rest
  | some d :: rest => if d = "" then extractFirstAudio rest else some d

/-- The `generateSingleVoice` wrapper: a rejection is rethrown; a response
with no (or empty, hence falsy) audio data raises the no-data error. -/
def generateSingleVoice (tts : VoiceName → String → Except String (Option String))
    (text : String) (voice : VoiceName) : Except String String :=
  match tts voice text with
  | .error e => .error e
  | .ok none => .error "No audio data returned from Gemini API"
  | .ok (some d) =>
    if d = "" then .error "No audio data returned from Gemini API" else .ok d

/-- The mimicry path of `generateClonedSpeech` (its `try` block): a rejection
or a response with no usable audio part fails. -/
def nativeAttempt (native : Except String (Option (List (Option String)))) :
    Except String String :=
  match native with
  | .error e => .error e
  | .ok none => .error "Model returned no audio data."
  | .ok (some parts) =>
    match extractFirstAudio parts with
    | none => .error "Model returned no audio data."
    | some a => .ok a

/-- The `generateClonedSpeech` function: try the mimicry path; on any failure
fall back to `generateSingleVoice` with the fixed default voice `Aoede`; only
when the fallback also fails raise an error carrying both messages. -/
def generateClonedSpeech (native : Except String (Option (List (Option String))))
    (tts : VoiceName → String → Except String (Option String)) (text : String) :
    Except String String :=
  match nativeAttempt native with
  | .ok a => .ok a
  | .error e1 =>
    match generateSingleVoice tts text VoiceName.aoede with
    | .ok a => .ok a
    | .error e2 =>
      .error ("Voice Generation failed. Native error: " ++ e1 ++
        ". Fallback error: " ++ e2)

/-- C8: cloned-voice generation is a two-tier fallback.  A mimicry success is
returned as-is; when the mimicry path fails, the operation retries via plain
synthesis with the fixed default voice `Aoede` and returns its result; an
error is raised if and only if both paths fail, and in that case the raised
message carries both underlying failure messages. -/
theorem c8_cloned_voice_fallback :
    ∀ native tts text,
      (∀ a, nativeAttempt native = .ok a →
        generateClonedSpeech native tts text = .ok a) ∧
      (∀ e1, nativeAttempt native = .error e1 →
        (∀ a, generateSingleVoice tts text VoiceName.aoede = .ok a →
          generateClonedSpeech native tts text = .ok a) ∧
        (∀ e2, generateSingleVoice tts text VoiceName.aoede = .error e2 →
          generateClonedSpeech native tts text =
            .error ("Voice Generation failed. Native error: " ++ e1 ++
              ". Fallback error: " ++ e2))) ∧
      ((∃ e, generateClonedSpeech native tts text = .error e) ↔
        (∃ e1, nativeAttempt native = .error e1) ∧
        (∃ e2, generateSingleVoice tts text VoiceName.aoede = .error e2)) := by
  intro native tts text
  refine ⟨?_, ?_, ?_⟩
  · intro a ha
    unfold generateClonedSpeech
    rw [ha]
  · intro e1 he1
    constructor
    · intro a ha
      unfold generateClonedSpeech
      rw [he1, ha]
    · intro e2 he2
      unfold generateClonedSpeech
      rw [he1, he2]
  · constructor
    · rintro ⟨e, he⟩
      unfold generateClonedSpeech at he
      cases hn : nativeAttempt native with
      | ok a => rw [hn] at he; exact absurd he (by simp)
      | error e1 =>
        rw [hn] at he
        cases hf : generateSingleVoice tts text VoiceName.aoede with
        | ok a => rw [hf] at he; exact absurd he (by simp)
        | error e2 => exact ⟨⟨e1, rfl⟩, ⟨e2, rfl⟩⟩
    · rintro ⟨⟨e1, he1⟩, ⟨e2, he2⟩⟩
      refine ⟨"Voice Generation failed. Native error: " ++ e1 ++
        ". Fallback error: " ++ e2, ?_⟩
      unfold generateClonedSpeech
      rw [he1, he2]

/-! ## ExportArchiver

`handleDownloadAll` in `TableOfContents.tsx`: guard on an empty snippet list
(`if (snippets.length === 0) return;` — no bundle is produced, modelled as
the `EmptyProject` failure), then a folder named by the sanitizer, one
`.wav` member per node holding audio, and the `structure.md` manifest
listing every section and subsection whether or not it holds audio. -/

/-- The export failure: the zero-root-nodes guard. -/
inductive BuildError
  | emptyProject
deriving DecidableEq, Repr

/-- The produced bundle: the root folder name, the named audio members and
the `structure.md` manifest text. -/
structure Bundle where
  folderName : String
  files : List (String × List Nat)
  manifest : String
deriving DecidableEq, Repr

/-- The manifest lines of one section's subsections
(`   ${i+1}.${j+1}. ${sub.name} (${sub.voice})\n` each). -/
def manifestSubLines (i : Nat) : Nat → List Subsection → String
  | _, [] => ""
  | j, t :: rest =>
    "   " ++ toString (i + 1) ++ "." ++ toString (j + 1) ++ ". " ++ t.name ++
      " (" ++ t.voice.str ++ ")\n" ++ manifestSubLines i (j + 1) rest

/-- The manifest lines of the sections from index `i` on: one
`${i+1}. ${name} (${voice})\n` line, the subsection lines, then the blank
line the loop appends after each section. -/
def manifestSections : Nat → List Snippet → String
  | _, [] => ""
  | i, s :: rest =>
    toString (i + 1) ++ ". " ++ s.name ++ " (" ++ s.voice.str ++ ")\n" ++
      manifestSubLines i 0 s.subsections ++ "\n" ++ manifestSections (i + 1) rest

/-- The whole `structure.md` content: the title line, the generation
timestamp line (`dateStr` stands for `new Date().toLocaleString()`), the
structure header and the outline. -/
def buildManifest (appName featureName dateStr : String) (snippets : List Snippet) :
    String :=
  "# " ++ appName ++ " - " ++ featureName ++ "\n\n" ++
    "Generated: " ++ dateStr ++ "\n\n## Structure\n\n" ++
    manifestSections 0 snippets

/-- The audio member one subsection contributes (none without audio). -/
def subFile (appName featureName sectionName : String) (t : Subsection) :
    List (String × List Nat) :=
  match t.audio with
  | none => []
  | some audio =>
    [(generateFileName [appName, featureName, sectionName, t.name] ++ ".wav",
      audio.blob)]

/-- The audio members one section contributes: its own member when it holds
audio, then its subsections' members in order. -/
def snippetFiles (appName featureName : String) (s : Snippet) :
    List (String × List Nat) :=
  (match s.audio with
   | none => []
   | some audio =>
     [(generateFileName [appName, featureName, s.name] ++ ".wav", audio.blob)]) ++
  (s.subsections.map (subFile appName featureName s.name)).flatten

/-- All audio members of the bundle, in traversal order. -/
def collectFiles (appName featureName : String) (snippets : List Snippet) :
    List (String × List Nat) :=
  (snippets.map (snippetFiles appName featureName)).flatten

/-- The `handleDownloadAll` handler. -/
def handleDownloadAll (appName featureName dateStr : String)
    (snippets : List Snippet) : Except BuildError Bundle :=
  if snippets.length = 0 then .error .emptyProject
  else
    .ok { folderName := generateFileName [appName, featureName]
          files := collectFiles appName featureName snippets
          manifest := buildManifest appName featureName dateStr snippets }

/-- Whether no node of the tree holds an artifact. -/
def noArtifacts (snippets : List Snippet) : Bool :=
  snippets.all (fun s =>
    s.audio.isNone && s.subsections.all (fun t => t.audio.isNone))

/-- Drop a subsection's artifact. -/
def eraseAudioSub (t : Subsection) : Subsection :=
  { t with audio := none }

/-- Drop a section's artifact and its subsections' artifacts. -/
def eraseAudio (s : Snippet) : Snippet :=
  { s with audio := none, subsections := s.subsections.map eraseAudioSub }

/-- Helper: artifact-less subsections contribute no audio member. -/
theorem subFiles_nil (an fn nm : String) (ts : List Subsection)
    (h : ts.all (fun t => t.audio.isNone) = true) :
    (ts.map (subFile an fn nm)).flatten = [] := by
  induction ts with
  | nil => rfl
  | cons t rest ih =>
    rw [List.all_cons] at h
    obtain ⟨h1, h2⟩ := bool_and_split h
    rw [List.map_cons, List.flatten_cons]
    have ht : subFile an fn nm t = [] := by
      unfold subFile
      cases ha : t.audio with
      | none => rfl
      | some au => rw [ha] at h1; simp at h1
    rw [ht, List.nil_append]
    exact ih h2

/-- Helper: an artifact-less tree contributes no audio member at all. -/
theorem collectFiles_nil (an fn : String) (snippets : List Snippet)
    (h : noArtifacts snippets = true) : collectFiles an fn snippets = [] := by
  unfold collectFiles noArtifacts at *
  induction snippets with
  | nil => rfl
  | cons s rest ih =>
    rw [List.all_cons] at h
    obtain ⟨h1, h2⟩ := bool_and_split h
    obtain ⟨ha, hsubs⟩ := bool_and_split h1
    rw [List.map_cons, List.flatten_cons]
    have hs : snippetFiles an fn s = [] := by
      unfold snippetFiles
      have hown : (match s.audio with
          | none => ([] : List (String × List Nat))
          | some audio =>
            [(generateFileName [an, fn, s.name] ++ ".wav", audio.blob)]) = [] := by
        cases hx : s.audio with
        | none => rfl
        | some au => rw [hx] at ha; simp at ha
      rw [hown, List.nil_append]
      exact subFiles_nil an fn s.name s.subsections hsubs
    rw [hs, List.nil_append]
    exact ih h2

/-- Helper: every member of the snippet list has its name somewhere in the
outline text. -/
theorem manifestSections_lists_names (l : List Snippet) :
    ∀ i s, s ∈ l → ∃ pre post,
      (manifestSections i l).data = pre ++ s.name.data ++ post := by
  induction l with
  | nil => intro i s hs; cases hs
  | cons x rest ih =>
    intro i s hs
    rcases List.mem_cons.mp hs with rfl | hmem
    · refine ⟨(toString (i + 1) ++ ". ").data,
        (" (" ++ s.voice.str ++ ")\n" ++ manifestSubLines i 0 s.subsections ++ "\n" ++
          manifestSections (i + 1) rest).data, ?_⟩
      show (manifestSections i (s :: rest)).data = _
      simp [manifestSections, String.data_append, List.append_assoc]
    · obtain ⟨pre, post, hp⟩ := ih (i + 1) s hmem
      refine ⟨(toString (i + 1) ++ ". " ++ x.name ++ " (" ++ x.voice.str ++ ")\n" ++
          manifestSubLines i 0 x.subsections ++ "\n").data ++ pre, post, ?_⟩
      show (manifestSections i (x :: rest)).data = _
      simp [manifestSections, String.data_append, hp, List.append_assoc]

/-- Helper: the subsection outline reads only names and voices, never
artifacts. -/
theorem manifestSubLines_erase (i : Nat) (ts : List Subsection) :
    ∀ j, manifestSubLines i j (ts.map eraseAudioSub) = manifestSubLines i j ts := by
  induction ts with
  | nil => intro j; rfl
  | cons t rest ih =>
    intro j
    show manifestSubLines i j (eraseAudioSub t :: rest.map eraseAudioSub) = _
    unfold manifestSubLines
    rw [ih (j + 1)]
    cases t
    rfl

/-- Helper: the section outline reads only names and voices, never
artifacts. -/
theorem manifestSections_erase (l : List Snippet) :
    ∀ i, manifestSections i (l.map eraseAudio) = manifestSections i l := by
  induction l with
  | nil => intro i; rfl
  | cons s rest ih =>
    intro i
    show manifestSections i (eraseAudio s :: rest.map eraseAudio) = _
    unfold manifestSections
    rw [ih (i + 1)]
    have h1 : (eraseAudio s).name = s.name := by cases s; rfl
    have h2 : (eraseAudio s).voice = s.voice := by cases s; rfl
    have h3 : manifestSubLines i 0 (eraseAudio s).subsections =
        manifestSubLines i 0 s.subsections := by
      have : (eraseAudio s).subsections = s.subsections.map eraseAudioSub := by
        cases s; rfl
      rw [this, manifestSubLines_erase]
    rw [h1, h2, h3]

/-- C6: `build` fails with `EmptyProject` (the empty-list guard: no bundle is
produced) exactly when the tree has zero root nodes; with at least one root
node it succeeds even when no node holds an artifact, and then the bundle has
zero audio members while its manifest is non-empty and still lists every
(artifact-less) node's name; indeed the manifest never depends on the
artifacts at all. -/
theorem c6_build_empty_project :
    (∀ an fn d snippets,
      handleDownloadAll an fn d snippets = .error .emptyProject ↔ snippets = []) ∧
    (∀ an fn d snippets, snippets ≠ [] → noArtifacts snippets = true →
      ∃ bundle, handleDownloadAll an fn d snippets = .ok bundle ∧
        bundle.files = [] ∧ bundle.manifest ≠ "" ∧
        ∀ s ∈ snippets, ∃ pre post,
          bundle.manifest.data = pre ++ s.name.data ++ post) ∧
    (∀ an fn d snippets,
      buildManifest an fn d (snippets.map eraseAudio) =
        buildManifest an fn d snippets) := by
  refine ⟨?_, ?_, ?_⟩
  · intro an fn d snippets
    unfold handleDownloadAll
    by_cases h : snippets.length = 0
    · simp [h, List.length_eq_zero.mp h]
    · have : snippets ≠ [] := by
        intro he
        exact h (by simp [he])
      simp [h, this]
  · intro an fn d snippets hne hart
    have hl : ¬ snippets.length = 0 := by
      intro h
      exact hne (List.length_eq_zero.mp h)
    refine ⟨_, by unfold handleDownloadAll; rw [if_neg hl], ?_, ?_, ?_⟩
    · exact collectFiles_nil an fn snippets hart
    · intro h
      have hd := congrArg String.data h
      simp [buildManifest, String.data_append] at hd
    · intro s hs
      obtain ⟨pre, post, hp⟩ := manifestSections_lists_names snippets 0 s hs
      refine ⟨("# " ++ an ++ " - " ++ fn ++ "\n\n" ++ "Generated: " ++ d ++
        "\n\n## Structure\n\n").data ++ pre, post, ?_⟩
      show (buildManifest an fn d snippets).data = _
      simp [buildManifest, String.data_append, hp, List.append_assoc]
  · intro an fn d snippets
    unfold buildManifest
    rw [manifestSections_erase]
